import Mathlib

/-!
Shallow embedding of the multi-model fallback pipeline of
`src/services/huggingFaceService.js` (the animal-translator repository).

Remote transport is modelled as an environment mapping a model id to the
outcome of the per-candidate request sequence (all delivery encodings
collapsed into one observed outcome).  JavaScript truthiness on strings,
substring checks (`String.prototype.includes`) and `Math.floor` /
`Math.random` are modelled explicitly; `Math.random()` draws are passed
as explicit rational parameters in `[0, 1)`.
-/

namespace AnimalTranslator

/-- JavaScript truthiness of a possibly-absent string field: `undefined`
and the empty string are falsy. -/
def jsTruthy : Option String → Bool
  | some s => !(s == "")
  | none => false

/-- JavaScript `a || b` where `a` is a possibly-absent string field and
`b` a string default: yields `a` when truthy, else `b`. -/
def jsOrStr (a : Option String) (b : String) : String :=
  match a with
  | some s => if s = "" then b else s
  | none => b

/-- Model of `result?.text || result?.transcription` as an optional
value: first truthy field, if any. -/
def firstTruthy (a b : Option String) : Option String :=
  if jsTruthy a then a else if jsTruthy b then b else none

/-- Prefix test: `listPrefixEq pat l` is true when `pat` is a prefix of `l`. -/
def listPrefixEq : List Char → List Char → Bool
  | [], _ => true
  | _ :: _, [] => false
  | a :: as, b :: bs => a == b && listPrefixEq as bs

/-- Containment test: `listContains pat l` is true when `pat` occurs
contiguously in `l`. -/
def listContains (pat : List Char) : List Char → Bool
  | [] => listPrefixEq pat []
  | l@(_ :: rest) => listPrefixEq pat l || listContains pat rest

/-- Model of JavaScript `s.includes(pat)`. -/
def strIncludes (s pat : String) : Bool :=
  listContains pat.data s.data

/-- Association-list lookup modelling a JavaScript object-literal table. -/
def tblLookup {α : Type} (k : String) : List (String × α) → Option α
  | [] => none
  | (k2, v) :: rest => if k = k2 then some v else tblLookup k rest

/-- Model of `Math.floor q` for a nonnegative rational, as a natural number. -/
def jsFloorNat (q : ℚ) : ℕ := (q.num / (q.den : ℤ)).toNat

/-! ### Transcription transport model -/

/-- Parsed JSON body of a non-2xx transcription response: the fields the
service reads (`error`, `message`, `raw`, `estimated_time`); a body that
failed to parse is all-`none`. -/
structure TransErrorBody where
  error : Option String := none
  message : Option String := none
  raw : Option String := none
  estimatedTime : Option Nat := none
deriving DecidableEq, Repr

/-- Parsed JSON body of a 2xx transcription response: either a bare
string or an object whose `text` / `transcription` fields may be
present.  Any other JSON shape behaves as `obj none none`. -/
inductive TransBody where
  | bare (s : String)
  | obj (text transcriptionField : Option String)
deriving DecidableEq, Repr

/-- Observed outcome of one per-candidate request sequence:
`netFail` = every delivery encoding threw (final thrown message);
`okJson` = 2xx with a parsed body; `okBadJson` = 2xx but
`response.json()` threw; `httpError` = non-2xx with its error body. -/
inductive TransAttempt where
  | netFail (msg : String)
  | okJson (body : TransBody)
  | okBadJson (msg : String)
  | httpError (status : Nat) (body : TransErrorBody)
deriving DecidableEq, Repr

/-- How one loop iteration ends: a returned value, an error entry pushed
onto `errors` before `continue`, or an exception escaping the loop. -/
inductive StepOutcome (α : Type) where
  | success (v : α)
  | recover (entry : String)
  | fatal (msg : String)
deriving DecidableEq, Repr

/-- Model of `errorData.estimated_time || 20` (0 is falsy in JavaScript). -/
def estimatedWait : Option Nat → Nat
  | some n => if n = 0 then 20 else n
  | none => 20

/-- The per-candidate `catch` of `transcribeAnimalSound`: rethrow when
the message looks auth- or loading-related, else record and continue. -/
def transcribeCatch (modelId msg : String) : StepOutcome String :=
  if strIncludes msg "Authentication" || strIncludes msg "loading" then
    .fatal msg
  else
    .recover (modelId ++ ": " ++ msg)

/-- One iteration of the model loop in `transcribeAnimalSound`
(lines 44–188): classify the observed attempt for `modelId`, where
`firstId` is `models[0]`. -/
def transcribeStep (firstId modelId : String) (att : TransAttempt) : StepOutcome String :=
  match att with
  | .netFail msg => transcribeCatch modelId msg
  | .okBadJson msg => transcribeCatch modelId msg
  | .httpError status body =>
    if status = 503 then
      if modelId = firstId then
        -- thrown, then rethrown by the catch since the text contains "loading"
        transcribeCatch modelId
          ("Model is loading. Please wait " ++ toString (estimatedWait body.estimatedTime)
            ++ " seconds and try again.")
      else
        .recover ("Model " ++ modelId ++ " is loading (503)")
    else if status = 410 then
      .recover ("Model " ++ modelId ++ " is no longer available (410 Gone)")
    else if status = 404 then
      .recover ("Model " ++ modelId ++ " not found (404) - may not be available on Inference API")
    else if status = 401 || status = 403 then
      -- thrown, then filtered by the catch on its message text
      transcribeCatch modelId
        (jsOrStr body.error (jsOrStr body.message
          "Authentication failed. Please check your VITE_HF_TOKEN."))
    else
      .recover (modelId ++ " (" ++ toString status ++ "): "
        ++ jsOrStr body.error (jsOrStr body.message (jsOrStr body.raw
          ("API request failed with status " ++ toString status))))
  | .okJson body =>
    match body with
    | .bare s => .success s
    | .obj t tr =>
      match firstTruthy t tr with
      | some s => .success s
      | none => .recover (modelId ++ ": No transcription text in response")

/-- Result of running a candidate loop to completion. -/
inductive LoopResult (α : Type) where
  | found (v : α)
  | exhausted (errors : List String)
  | thrown (msg : String)
deriving DecidableEq, Repr

/-- The `for (const modelId of models)` loop of `transcribeAnimalSound`,
carrying the accumulated `errors` array. -/
def transcribeLoop (att : String → TransAttempt) (firstId : String) :
    List String → List String → LoopResult String
  | [], errors => .exhausted errors
  | m :: rest, errors =>
    match transcribeStep firstId m (att m) with
    | .success t => .found t
    | .recover e => transcribeLoop att firstId rest (errors ++ [e])
    | .fatal msg => .thrown msg

/-- The numbered error list `errors.map((e, i) => ...)` of the summary. -/
def numberEntries (errors : List String) : List String :=
  errors.enum.map (fun p => "  " ++ toString (p.1 + 1) ++ ". " ++ p.2)

/-- The `errorSummary` thrown when all candidates failed and not all
failures were 410/Gone (lines 210–215). -/
def transcriptionErrorSummary (models errors : List String) : String :=
  if errors.isEmpty then "All transcription models failed"
  else
    "All transcription models failed.\n\nModels tried: "
      ++ String.intercalate ", " models
      ++ "\n\nErrors encountered:\n"
      ++ String.intercalate "\n" (numberEntries errors)
      ++ "\n\nPossible causes:\n- Models may not be available on the serverless Inference API\n- Your API token may need additional permissions\n- Models may need to be explicitly enabled for your account\n- The models may have been moved or deprecated\n\nTroubleshooting steps:\n1. Check your VITE_HF_TOKEN is valid and starts with \"hf_\"\n2. Verify your token has \"Inference API\" permissions at https://huggingface.co/settings/tokens\n3. Check your account has Inference API access at https://huggingface.co/settings/billing\n4. Visit https://huggingface.co/models?pipeline_tag=automatic-speech-recognition&inference=true to find available models\n5. Check the browser console for detailed error logs"

/-- Model of the all-deprecated check over the collected errors
(line 192): the error list is nonempty and every entry includes the
substring 410 or the substring Gone. -/
def all410 (errors : List String) : Bool :=
  !errors.isEmpty && errors.all (fun e => strIncludes e "410" || strIncludes e "Gone")

/-- Body of the outer `try` of `transcribeAnimalSound`: token check,
candidate loop, then all-Gone / summary handling.  `.ok none` is the
`return null` that signals "use the mock transcription". -/
def transcribeCore (token : String) (att : String → TransAttempt)
    (models : List String) : Except String (Option String) :=
  if token = "" then
    .error "Hugging Face token is required. Please set VITE_HF_TOKEN in your .env file."
  else
    match transcribeLoop att (models.headD "") models [] with
    | .found t => .ok (some t)
    | .thrown msg => .error msg
    | .exhausted errors =>
      if all410 errors then .ok none
      else .error (transcriptionErrorSummary models errors)

/-- Function `transcribeAnimalSound` (lines 17–220): the outer catch wraps every
thrown error as `Transcription failed: ...`. -/
def transcribeAnimalSound (token : String) (att : String → TransAttempt)
    (models : List String) : Except String (Option String) :=
  match transcribeCore token att models with
  | .ok v => .ok v
  | .error e => .error ("Transcription failed: " ++ e)

/-- The static transcription candidate list (lines 32–39). -/
def transcriptionModels : List String :=
  ["zai-org/GLM-ASR-Nano-2512",
   "facebook/wav2vec2-base-960h",
   "jonatasgrosman/wav2vec2-large-xlsr-53-english",
   "openai/whisper-small",
   "openai/whisper-base",
   "openai/whisper-medium"]

/-! ### Translation (chat-completion) transport model -/

/-- Parsed JSON body of a non-2xx chat response: the service reads only
`errorData.error?.message`; a body that failed to parse reads as `none`. -/
structure ChatErrorBody where
  errorMessage : Option String := none
deriving DecidableEq, Repr

/-- Observed outcome of one chat-completion candidate request:
`okJson content` is a 2xx whose `choices[0].message.content` is
`content` (absent or non-string reads as `none`). -/
inductive ChatAttempt where
  | netFail (msg : String)
  | okJson (content : Option String)
  | okBadJson (msg : String)
  | httpError (status : Nat) (body : ChatErrorBody)
deriving DecidableEq, Repr

/-- The successful return value of `translateAnimalSound`
(lines 301–305). -/
structure TranslationSuccess where
  text : String
  confidence : ℚ
  transcribedText : String
deriving DecidableEq, Repr

/-- The generic sentence substituted when the completion has no usable
content field (line 296). -/
def noContentFallback (animalName : String) : String :=
  "The " ++ animalName
    ++ " seems to be communicating something, but I couldn\x27t interpret it clearly."

/-- Model of `Math.min(0.95, 0.7 + Math.random() * 0.25)` with the random draw
`r` made explicit (line 299). -/
def synthConfidence (r : ℚ) : ℚ := min 0.95 (0.7 + r * 0.25)

/-- The per-candidate `catch` of `translateAnimalSound`: model-not-found
errors continue to the next candidate, anything else rethrows. -/
def translateCatch (modelId msg : String) : StepOutcome TranslationSuccess :=
  if strIncludes msg "does not exist" || strIncludes msg "404" then
    .recover (modelId ++ ": " ++ msg)
  else
    .fatal msg

/-- One iteration of the model loop in `translateAnimalSound`
(lines 250–315), with random draw `r` for the confidence synthesis. -/
def translateStep (modelId animalName transcribedText : String) (r : ℚ)
    (att : ChatAttempt) : StepOutcome TranslationSuccess :=
  match att with
  | .netFail msg => translateCatch modelId msg
  | .okBadJson msg => translateCatch modelId msg
  | .httpError status body =>
    let errorMsg := jsOrStr body.errorMessage
      ("API request failed with status " ++ toString status)
    if status = 404 || strIncludes errorMsg "does not exist" then
      .recover (modelId ++ ": " ++ errorMsg)
    else
      -- thrown, then filtered by the catch on its message text
      translateCatch modelId errorMsg
  | .okJson content =>
    .success
      { text := jsOrStr content (noContentFallback animalName)
        confidence := synthConfidence r
        transcribedText := transcribedText }

/-- The `for (const modelId of models)` loop of `translateAnimalSound`. -/
def translateLoop (animalName transcribedText : String) (r : ℚ)
    (att : String → ChatAttempt) :
    List String → List String → LoopResult TranslationSuccess
  | [], errors => .exhausted errors
  | m :: rest, errors =>
    match translateStep m animalName transcribedText r (att m) with
    | .success v => .found v
    | .recover e => translateLoop animalName transcribedText r att rest (errors ++ [e])
    | .fatal msg => .thrown msg

/-- The message thrown when the chat loop exhausts with recorded errors
(lines 319–327). -/
def translationErrorSummary (models errors : List String) : String :=
  "All translation models failed.\n\nModels tried: "
    ++ String.intercalate ", " models
    ++ "\n\nErrors:\n"
    ++ String.intercalate "\n" (numberEntries errors)
    ++ "\n\nPlease check:\n1. Visit https://huggingface.co/chat/models to see available models\n2. Update the models array in huggingFaceService.js with a working model\n3. Verify your token has access to Inference Providers API"

/-- Body of the outer `try` of `translateAnimalSound`: token check, the
candidate loop, then the exhaustion handling (`throw lastError || ...`
is only reached with an empty error list, i.e. an empty model list). -/
def translateCore (transcribedText animalName token : String) (r : ℚ)
    (att : String → ChatAttempt) (models : List String) :
    Except String TranslationSuccess :=
  if token = "" then
    .error "Hugging Face token is required. Please set VITE_HF_TOKEN in your .env file."
  else
    match translateLoop animalName transcribedText r att models [] with
    | .found v => .ok v
    | .thrown msg => .error msg
    | .exhausted errors =>
      if errors.isEmpty then .error "Translation failed: Unknown error"
      else .error (translationErrorSummary models errors)

/-- Function `translateAnimalSound` (lines 228–334): the outer catch wraps every
thrown error as `Translation failed: ...`. -/
def translateAnimalSound (transcribedText animalName token : String) (r : ℚ)
    (att : String → ChatAttempt) (models : List String) :
    Except String TranslationSuccess :=
  match translateCore transcribedText animalName token r att models with
  | .ok v => .ok v
  | .error e => .error ("Translation failed: " ++ e)

/-- The static chat-completion candidate list (lines 239–245). -/
def translationModels : List String :=
  ["meta-llama/Llama-3.1-8B-Instruct",
   "meta-llama/Meta-Llama-3.1-8B-Instruct",
   "mistralai/Mistral-7B-Instruct-v0.2",
   "mistralai/Mixtral-8x7B-Instruct-v0.1",
   "google/gemma-2-2b-it"]

/-! ### Mock fallback provider -/

/-- Table `mockSounds` of `getMockTranscription` (lines 341–352). -/
def mockSounds : List (String × String) :=
  [("Dog", "woof woof bark"),
   ("Cat", "meow meow purr"),
   ("Bird", "tweet chirp tweet"),
   ("Cow", "moo moo"),
   ("Pig", "oink oink snort"),
   ("Rooster", "cock-a-doodle-doo"),
   ("Duck", "quack quack"),
   ("Sheep", "baa baa"),
   ("Horse", "neigh whinny"),
   ("Lion", "roar growl")]

/-- Function `getMockTranscription` (lines 340–354): table lookup with
the JavaScript fallback to the generic string. -/
def getMockTranscription (animalName : String) : String :=
  jsOrStr (tblLookup animalName mockSounds) "animal sound"

/-- Table `translations` of `getMockTranslation` (lines 361–407). -/
def translationsTable : List (String × List String) :=
  [("Dog",
    ["I\x27m so excited! Can we play now? I\x27ve been waiting!",
     "Hey! I\x27m here and I want your attention!",
     "I love you! Give me belly rubs please!",
     "Something\x27s happening! I need to protect you!"]),
   ("Cat",
    ["I\x27m happy and content. Can I have some treats and scratches behind my ears?",
     "I\x27m hungry! Where\x27s my food?",
     "I want attention right now. Pet me please!",
     "I\x27m feeling playful! Let\x27s have some fun together!"]),
   ("Bird",
    ["Good morning! I\x27m singing my beautiful song for you!",
     "Hey everyone! I\x27m here and I\x27m happy!",
     "Listen to my lovely voice! I\x27m calling to my friends!"]),
   ("Cow",
    ["Hello! I\x27m calling out to my friends in the field!",
     "I\x27m content and happy here in the pasture!"]),
   ("Pig",
    ["I\x27m so excited! Is it time for food?",
     "I\x27m happy and want to play!"]),
   ("Rooster",
    ["Wake up! It\x27s morning time!",
     "I\x27m announcing the new day!"]),
   ("Duck",
    ["Hello! I\x27m here and I\x27m happy!",
     "Let\x27s go swimming together!"]),
   ("Sheep",
    ["I\x27m calling to my flock!",
     "I\x27m content and peaceful!"]),
   ("Horse",
    ["I\x27m excited and ready to run!",
     "Hello friend! Let\x27s go on an adventure!"]),
   ("Lion",
    ["I\x27m the king! Hear my powerful voice!",
     "I\x27m calling to my pride!"])]

/-- The generic options used for unknown animal labels (lines 409–412);
an array is always truthy in JavaScript, so `|| [...]` only fires when
the lookup misses. -/
def genericTranslationOptions : List String :=
  ["I\x27m trying to tell you something important!",
   "I\x27m expressing my feelings to you!"]

/-- Function `getMockTranslation` (lines 360–415): pick
`options[Math.floor(r * options.length)]`, with the random draw `r`
made explicit; the `transcribedText` argument is never read. -/
def getMockTranslation (animalName : String) (transcribedText : String) (r : ℚ) : String :=
  let options := (tblLookup animalName translationsTable).getD genericTranslationOptions
  options.getD (jsFloorNat (r * options.length)) ""

/-! ### End-to-end pipeline -/

/-- The final output record of `processAnimalSound` (lines 461–466). -/
structure TranslationRecord where
  text : String
  confidence : ℚ
  transcribedText : String
  isMockTranscription : Bool
  isMockTranslation : Bool
deriving DecidableEq, Repr

/-- Function `processAnimalSound` (lines 423–471).  Both inner `try` blocks catch
every error and substitute the mock provider, and `if (!transcribedText)`
treats both `null` and the empty string as missing; the outer catch only
rethrows, so the function always returns a record.  `rConf` is the
random draw for the remote confidence score, `rMock` the draw for the
mock-translation choice. -/
def processAnimalSound (token animalName : String)
    (tAtt : String → TransAttempt) (cAtt : String → ChatAttempt)
    (rConf rMock : ℚ) (tModels cModels : List String) :
    Except String TranslationRecord :=
  let step1 : String × Bool :=
    match transcribeAnimalSound token tAtt tModels with
    | .ok (some s) => if s = "" then (getMockTranscription animalName, true) else (s, false)
    | .ok none => (getMockTranscription animalName, true)
    | .error _ => (getMockTranscription animalName, true)
  let transcribedText := step1.1
  let step2 : TranslationSuccess × Bool :=
    match translateAnimalSound transcribedText animalName token rConf cAtt cModels with
    | .ok tr => (tr, false)
    | .error _ =>
      ({ text := getMockTranslation animalName transcribedText rMock
         confidence := 0.6
         transcribedText := transcribedText }, true)
  .ok
    { text := step2.1.text
      confidence := step2.1.confidence
      transcribedText := transcribedText
      isMockTranscription := step1.2
      isMockTranslation := step2.2 }

/-! ### Helper lemmas -/

theorem listContains_append_right (pat l1 l2 : List Char)
    (h : listContains pat l2 = true) : listContains pat (l1 ++ l2) = true := by
  induction l1 with
  | nil => simpa using h
  | cons a as ih =>
    show (listPrefixEq pat (a :: (as ++ l2)) || listContains pat (as ++ l2)) = true
    rw [Bool.or_eq_true]
    right
    exact ih

theorem strIncludes_append_right (a b pat : String)
    (h : strIncludes b pat = true) : strIncludes (a ++ b) pat = true := by
  unfold strIncludes at h ⊢
  rw [String.data_append]
  exact listContains_append_right _ _ _ h

theorem jsOrStr_ne_empty (o : Option String) (d : String) (hd : d ≠ "") :
    jsOrStr o d ≠ "" := by
  unfold jsOrStr
  match o with
  | none => exact hd
  | some s =>
    by_cases hs : s = "" <;> simp [hs, hd]

theorem getMockTranscription_ne_empty (animalName : String) :
    getMockTranscription animalName ≠ "" := by
  unfold getMockTranscription
  exact jsOrStr_ne_empty _ _ (by simp)

theorem noContentFallback_ne_empty (animalName : String) :
    noContentFallback animalName ≠ "" := by
  unfold noContentFallback
  intro h
  have hl := congrArg String.length h
  simp [String.length_append] at hl
  exact absurd hl.1.1 (by decide)

theorem tblLookup_mem {α : Type} (k : String) (l : List (String × α)) (v : α)
    (h : tblLookup k l = some v) : v ∈ l.map Prod.snd := by
  induction l with
  | nil => simp [tblLookup] at h
  | cons p rest ih =>
    unfold tblLookup at h
    by_cases hk : k = p.1
    · simp only [hk, if_pos rfl] at h
      cases h
      simp
    · rw [if_neg hk] at h
      simp only [List.map_cons, List.mem_cons]
      right
      exact ih h

/-- Every canned mock-translation option list (known animal or generic)
is nonempty. -/
theorem mockTranslationOptions_ne_nil (animalName : String) :
    (tblLookup animalName translationsTable).getD genericTranslationOptions ≠ [] := by
  rcases h : tblLookup animalName translationsTable with _ | opts
  · simp [genericTranslationOptions]
  · have hm := tblLookup_mem _ _ _ h
    simp only [Option.getD_some]
    revert hm
    have : ∀ l ∈ translationsTable.map Prod.snd, l ≠ [] := by decide
    exact this opts

/-- Every canned mock-translation sentence is nonempty. -/
theorem mockTranslationOptions_ne_empty (animalName : String) :
    ∀ s ∈ (tblLookup animalName translationsTable).getD genericTranslationOptions,
      s ≠ "" := by
  rcases h : tblLookup animalName translationsTable with _ | opts
  · simp only [Option.getD_none]
    decide
  · have hm := tblLookup_mem _ _ _ h
    simp only [Option.getD_some]
    revert hm
    have : ∀ l ∈ translationsTable.map Prod.snd, ∀ s ∈ l, s ≠ "" := by decide
    exact this opts

theorem jsFloorNat_lt (r : ℚ) (h1 : r < 1) (n : ℕ) (hn : 0 < n) :
    jsFloorNat (r * n) < n := by
  unfold jsFloorNat
  rw [← Rat.floor_def]
  have h2 : r * n < n := by
    calc r * n < 1 * n := by
          apply mul_lt_mul_of_pos_right h1
          exact_mod_cast hn
      _ = n := one_mul _
  have h3 : ⌊r * (n : ℚ)⌋ < (n : ℤ) := by
    rw [Int.floor_lt]
    exact_mod_cast h2
  omega

/-- The chosen mock translation is always one of the configured options
for the animal (or of the generic list for unknown animals). -/
theorem getMockTranslation_mem (animalName transcribedText : String) (r : ℚ)
    (h1 : r < 1) :
    getMockTranslation animalName transcribedText r
      ∈ (tblLookup animalName translationsTable).getD genericTranslationOptions := by
  unfold getMockTranslation
  set options := (tblLookup animalName translationsTable).getD genericTranslationOptions
    with hoptions
  have hpos : 0 < options.length :=
    List.length_pos.mpr (mockTranslationOptions_ne_nil animalName)
  have hidx : jsFloorNat (r * options.length) < options.length :=
    jsFloorNat_lt r h1 options.length hpos
  rw [List.getD_eq_getElem options "" hidx]
  exact List.getElem_mem hidx

theorem getMockTranslation_ne_empty (animalName transcribedText : String) (r : ℚ)
    (h1 : r < 1) :
    getMockTranslation animalName transcribedText r ≠ "" :=
  mockTranslationOptions_ne_empty animalName _
    (getMockTranslation_mem animalName transcribedText r h1)

/-- Candidates classified as recoverable only append their error entry:
the loop then proceeds with the remaining candidates, in order. -/
theorem transcribeLoop_all_recover (att : String → TransAttempt) (firstId : String)
    (entry : String → String) (pre : List String) :
    (∀ m ∈ pre, transcribeStep firstId m (att m) = .recover (entry m)) →
    ∀ (rest errors : List String),
      transcribeLoop att firstId (pre ++ rest) errors
        = transcribeLoop att firstId rest (errors ++ pre.map entry) := by
  induction pre with
  | nil =>
    intro _ rest errors
    simp
  | cons m ms ih =>
    intro hpre rest errors
    have hm : transcribeStep firstId m (att m) = .recover (entry m) :=
      hpre m (List.mem_cons_self m ms)
    calc transcribeLoop att firstId ((m :: ms) ++ rest) errors
        = transcribeLoop att firstId (ms ++ rest) (errors ++ [entry m]) := by
          rw [List.cons_append, transcribeLoop, hm]
      _ = transcribeLoop att firstId rest ((errors ++ [entry m]) ++ ms.map entry) :=
          ih (fun x hx => hpre x (List.mem_cons_of_mem m hx)) rest _
      _ = transcribeLoop att firstId rest (errors ++ (m :: ms).map entry) := by
          simp

/-- Same statement for the chat-completion loop. -/
theorem translateLoop_all_recover (animalName transcribedText : String) (r : ℚ)
    (att : String → ChatAttempt) (entry : String → String) (pre : List String) :
    (∀ m ∈ pre, translateStep m animalName transcribedText r (att m) = .recover (entry m)) →
    ∀ (rest errors : List String),
      translateLoop animalName transcribedText r att (pre ++ rest) errors
        = translateLoop animalName transcribedText r att rest (errors ++ pre.map entry) := by
  induction pre with
  | nil =>
    intro _ rest errors
    simp
  | cons m ms ih =>
    intro hpre rest errors
    have hm : translateStep m animalName transcribedText r (att m) = .recover (entry m) :=
      hpre m (List.mem_cons_self m ms)
    calc translateLoop animalName transcribedText r att ((m :: ms) ++ rest) errors
        = translateLoop animalName transcribedText r att (ms ++ rest) (errors ++ [entry m]) := by
          rw [List.cons_append, translateLoop, hm]
      _ = translateLoop animalName transcribedText r att rest
            ((errors ++ [entry m]) ++ ms.map entry) :=
          ih (fun x hx => hpre x (List.mem_cons_of_mem m hx)) rest _
      _ = translateLoop animalName transcribedText r att rest
            (errors ++ (m :: ms).map entry) := by
          simp

/-- A chat-loop iteration only succeeds on a 2xx response, and then the
value is the extracted (or substituted) text with the synthesized
confidence and the input transcript. -/
theorem translateStep_success_inv (modelId animalName transcribedText : String)
    (r : ℚ) (att : ChatAttempt) (v : TranslationSuccess)
    (h : translateStep modelId animalName transcribedText r att = .success v) :
    ∃ content, att = .okJson content
      ∧ v = { text := jsOrStr content (noContentFallback animalName)
              confidence := synthConfidence r
              transcribedText := transcribedText } := by
  cases att with
  | netFail msg =>
    simp only [translateStep, translateCatch] at h
    split_ifs at h <;> cases h
  | okBadJson msg =>
    simp only [translateStep, translateCatch] at h
    split_ifs at h <;> cases h
  | httpError status body =>
    simp only [translateStep, translateCatch] at h
    split_ifs at h <;> cases h
  | okJson content =>
    refine ⟨content, rfl, ?_⟩
    simp only [translateStep] at h
    cases h
    rfl

/-- If the chat loop finds a value, its confidence is the synthesized
score, its text is nonempty, and it carries the input transcript. -/
theorem translateLoop_found_inv (animalName transcribedText : String) (r : ℚ)
    (att : String → ChatAttempt) (models : List String) :
    ∀ (errors : List String) (w : TranslationSuccess),
      translateLoop animalName transcribedText r att models errors = .found w →
      w.confidence = synthConfidence r ∧ w.text ≠ ""
        ∧ w.transcribedText = transcribedText := by
  induction models with
  | nil =>
    intro errors w h
    cases h
  | cons m ms ih =>
    intro errors w h
    rw [translateLoop] at h
    cases hstep : translateStep m animalName transcribedText r (att m) with
    | success v =>
      rw [hstep] at h
      injection h with hvw
      subst hvw
      obtain ⟨content, _, hv⟩ := translateStep_success_inv m animalName transcribedText r
        (att m) v hstep
      subst hv
      refine ⟨rfl, ?_, rfl⟩
      exact jsOrStr_ne_empty content _ (noContentFallback_ne_empty animalName)
    | recover e =>
      rw [hstep] at h
      exact ih _ w h
    | fatal msg =>
      rw [hstep] at h
      cases h

/-- Lifting of `translateLoop_found_inv` to `translateAnimalSound`. -/
theorem translateAnimalSound_ok_inv (transcribedText animalName token : String)
    (r : ℚ) (att : String → ChatAttempt) (models : List String)
    (w : TranslationSuccess)
    (h : translateAnimalSound transcribedText animalName token r att models = .ok w) :
    w.confidence = synthConfidence r ∧ w.text ≠ ""
      ∧ w.transcribedText = transcribedText := by
  unfold translateAnimalSound at h
  cases hc : translateCore transcribedText animalName token r att models with
  | error e =>
    rw [hc] at h
    cases h
  | ok v =>
    rw [hc] at h
    injection h with h1
    subst h1
    unfold translateCore at hc
    split_ifs at hc
    split at hc
    next u heq =>
      injection hc with h2
      subst h2
      exact translateLoop_found_inv animalName transcribedText r att models [] u heq
    next msg heq => cases hc
    next errors heq => split_ifs at hc <;> cases hc

/-- A prefix match survives appending on the right. -/
theorem listPrefixEq_append (pat l1 l2 : List Char) (h : listPrefixEq pat l1 = true) :
    listPrefixEq pat (l1 ++ l2) = true := by
  induction pat generalizing l1 with
  | nil => rfl
  | cons a as ih =>
    cases l1 with
    | nil => cases h
    | cons b bs =>
      simp only [List.cons_append, listPrefixEq, Bool.and_eq_true] at h ⊢
      exact ⟨h.1, ih bs h.2⟩

theorem listContains_nil_pat (l : List Char) : listContains [] l = true := by
  cases l <;> rfl

theorem listContains_append_left (pat l1 l2 : List Char)
    (h : listContains pat l1 = true) : listContains pat (l1 ++ l2) = true := by
  induction l1 with
  | nil =>
    cases pat with
    | nil => exact listContains_nil_pat l2
    | cons a as => cases h
  | cons b bs ih =>
    have h2 : (listPrefixEq pat (b :: bs) || listContains pat bs) = true := h
    rw [Bool.or_eq_true] at h2
    have hsplit : listPrefixEq pat (b :: bs) = true ∨ listContains pat bs = true := h2
    show (listPrefixEq pat (b :: (bs ++ l2)) || listContains pat (bs ++ l2)) = true
    rw [Bool.or_eq_true]
    rcases hsplit with hp | hc
    · left
      exact listPrefixEq_append pat (b :: bs) l2 hp
    · right
      exact ih hc

theorem strIncludes_append_left (a b pat : String)
    (h : strIncludes a pat = true) : strIncludes (a ++ b) pat = true := by
  unfold strIncludes at h ⊢
  rw [String.data_append]
  exact listContains_append_left _ _ _ h

/-- Full case analysis of the record returned by `processAnimalSound`:
it always returns `.ok`, the transcription field comes from exactly one
of remote success (nonempty) or the mock table — reflected by
`isMockTranscription` — and the translation text/confidence come from
exactly one of remote success or the mock provider — reflected by
`isMockTranslation`, with confidence pinned to 0.6 in the mock case. -/
theorem processAnimalSound_spec (token animalName : String)
    (tAtt : String → TransAttempt) (cAtt : String → ChatAttempt)
    (rC rM : ℚ) (tModels cModels : List String) :
    ∃ rec, processAnimalSound token animalName tAtt cAtt rC rM tModels cModels = .ok rec
      ∧ ((rec.isMockTranscription = true
            ∧ rec.transcribedText = getMockTranscription animalName
            ∧ (transcribeAnimalSound token tAtt tModels = .ok none
                ∨ transcribeAnimalSound token tAtt tModels = .ok (some "")
                ∨ ∃ e, transcribeAnimalSound token tAtt tModels = .error e))
          ∨ (rec.isMockTranscription = false ∧ rec.transcribedText ≠ ""
              ∧ transcribeAnimalSound token tAtt tModels = .ok (some rec.transcribedText)))
      ∧ ((rec.isMockTranslation = true ∧ rec.confidence = 0.6
            ∧ rec.text = getMockTranslation animalName rec.transcribedText rM
            ∧ ∃ e, translateAnimalSound rec.transcribedText animalName token rC cAtt cModels
                = .error e)
          ∨ (rec.isMockTranslation = false
              ∧ ∃ w, translateAnimalSound rec.transcribedText animalName token rC cAtt cModels
                  = .ok w ∧ rec.text = w.text ∧ rec.confidence = w.confidence)) := by
  unfold processAnimalSound
  cases htr : transcribeAnimalSound token tAtt tModels with
  | ok t =>
    cases t with
    | some s =>
      by_cases hs : s = ""
      · subst hs
        dsimp only
        rw [if_pos rfl]
        dsimp only
        cases hct : translateAnimalSound (getMockTranscription animalName) animalName token
            rC cAtt cModels with
        | ok w =>
          exact ⟨_, rfl, .inl ⟨rfl, rfl, .inr (.inl rfl)⟩, .inr ⟨rfl, w, hct, rfl, rfl⟩⟩
        | error e =>
          exact ⟨_, rfl, .inl ⟨rfl, rfl, .inr (.inl rfl)⟩, .inl ⟨rfl, rfl, rfl, e, hct⟩⟩
      · dsimp only
        rw [if_neg hs]
        dsimp only
        cases hct : translateAnimalSound s animalName token rC cAtt cModels with
        | ok w =>
          exact ⟨_, rfl, .inr ⟨rfl, hs, rfl⟩, .inr ⟨rfl, w, hct, rfl, rfl⟩⟩
        | error e =>
          exact ⟨_, rfl, .inr ⟨rfl, hs, rfl⟩, .inl ⟨rfl, rfl, rfl, e, hct⟩⟩
    | none =>
      dsimp only
      cases hct : translateAnimalSound (getMockTranscription animalName) animalName token
          rC cAtt cModels with
      | ok w =>
        exact ⟨_, rfl, .inl ⟨rfl, rfl, .inl rfl⟩, .inr ⟨rfl, w, hct, rfl, rfl⟩⟩
      | error e =>
        exact ⟨_, rfl, .inl ⟨rfl, rfl, .inl rfl⟩, .inl ⟨rfl, rfl, rfl, e, hct⟩⟩
  | error e0 =>
    dsimp only
    cases hct : translateAnimalSound (getMockTranscription animalName) animalName token
        rC cAtt cModels with
    | ok w =>
      exact ⟨_, rfl, .inl ⟨rfl, rfl, .inr (.inr ⟨e0, rfl⟩)⟩, .inr ⟨rfl, w, hct, rfl, rfl⟩⟩
    | error e =>
      exact ⟨_, rfl, .inl ⟨rfl, rfl, .inr (.inr ⟨e0, rfl⟩)⟩, .inl ⟨rfl, rfl, rfl, e, hct⟩⟩

/-! ### Claim theorems -/

/-- C1 (amended): with the credential absent, both pipeline functions
fail fatally without consulting the transport environment (the result is
the same for every environment, so no network attempt is made), but
`processAnimalSound` catches those failures and returns an all-mock
record with confidence 0.6 instead of raising a fatal error. -/
theorem c1_no_credential_no_network_all_mock
    (tAtt : String → TransAttempt) (cAtt : String → ChatAttempt)
    (animalName transcribedText : String) (rC rM : ℚ)
    (tModels cModels : List String) :
    transcribeAnimalSound "" tAtt tModels
      = .error ("Transcription failed: Hugging Face token is required. Please set VITE_HF_TOKEN in your .env file.")
    ∧ translateAnimalSound transcribedText animalName "" rC cAtt cModels
      = .error ("Translation failed: Hugging Face token is required. Please set VITE_HF_TOKEN in your .env file.")
    ∧ processAnimalSound "" animalName tAtt cAtt rC rM tModels cModels
      = .ok { text := getMockTranslation animalName (getMockTranscription animalName) rM
              confidence := 0.6
              transcribedText := getMockTranscription animalName
              isMockTranscription := true
              isMockTranslation := true } :=
  ⟨rfl, rfl, rfl⟩

/-- C1 counterexample: at this concrete credential-absent invocation
`processAnimalSound` does not raise a fatal error — it returns an
all-mock record. -/
theorem c1_counterexample :
    processAnimalSound "" "Dog" (fun _ => .netFail "network unreachable")
        (fun _ => .netFail "network unreachable") 0 0
        transcriptionModels translationModels
      = .ok { text := getMockTranslation "Dog" (getMockTranscription "Dog") 0
              confidence := 0.6
              transcribedText := getMockTranscription "Dog"
              isMockTranscription := true
              isMockTranslation := true } := rfl

/-- C2: the claim fails on the code.  A 401 whose error body carries a
message without the word "Authentication" is recorded as recoverable and
the next candidate IS attempted (here `model-b` is consulted and
succeeds), because fatality is decided by a substring check on the
thrown message; only when the body has no usable `error`/`message` field
does the default auth message make the failure fatal as documented. -/
theorem c2_unauthorized_with_body_continues :
    transcribeAnimalSound "hf_x"
        (fun m => if m = "model-a"
          then .httpError 401 { error := some "Invalid credentials" }
          else .okJson (.bare "hello world"))
        ["model-a", "model-b"]
      = .ok (some "hello world")
    ∧ transcribeAnimalSound "hf_x"
        (fun _ => .httpError 401 {})
        ["model-a", "model-b"]
      = .error "Transcription failed: Authentication failed. Please check your VITE_HF_TOKEN." :=
  ⟨rfl, rfl⟩

/-- C7: the mock transcript is a fixed per-animal string ("Dog" always
maps to its canned sound, a label missing from the table to the generic
string), and the mock translation always lies in the configured option
set for the label (the generic set for unknown labels). -/
theorem c7_mock_provider_deterministic :
    getMockTranscription "Dog" = "woof woof bark"
    ∧ (∀ animalName, tblLookup animalName mockSounds = none →
        getMockTranscription animalName = "animal sound")
    ∧ (∀ (animalName transcribedText : String) (r : ℚ), r < 1 →
        getMockTranslation animalName transcribedText r
          ∈ (tblLookup animalName translationsTable).getD genericTranslationOptions) := by
  refine ⟨rfl, ?_, ?_⟩
  · intro a h
    unfold getMockTranscription
    rw [h]
    rfl
  · intro a t r hr
    exact getMockTranslation_mem a t r hr

/-- C7 witness: concrete instances of the hypotheses and conclusions. -/
theorem c7_witness :
    tblLookup "Zebra" mockSounds = none
    ∧ getMockTranscription "Zebra" = "animal sound"
    ∧ (0 : ℚ) < 1
    ∧ getMockTranslation "Dog" "woof woof bark" 0
        ∈ (tblLookup "Dog" translationsTable).getD genericTranslationOptions :=
  ⟨rfl, c7_mock_provider_deterministic.2.1 "Zebra" rfl, zero_lt_one,
   c7_mock_provider_deterministic.2.2 "Dog" "woof woof bark" 0 zero_lt_one⟩

/-- C8 counterexample: a bare-string 2xx body that is the EMPTY string
is returned as a success, contradicting "a success response containing
no non-empty text is not returned as success". -/
theorem c8_counterexample :
    transcribeAnimalSound "hf_y" (fun _ => .okJson (.bare "")) ["model-a"]
      = .ok (some "") := rfl

/-- C8 (amended): a bare-string body is returned as success as-is (even
when empty); for object bodies the first truthy of `text` /
`transcription` is returned, and an object with no nonempty text is
recorded as recoverable — the next candidate is tried — rather than
returned as success. -/
theorem c8_success_extraction (firstId modelId s : String) :
    transcribeStep firstId modelId (.okJson (.bare s)) = .success s
    ∧ (∀ tr : Option String, s ≠ "" →
        transcribeStep firstId modelId (.okJson (.obj (some s) tr)) = .success s)
    ∧ (∀ t : Option String, jsTruthy t = false → s ≠ "" →
        transcribeStep firstId modelId (.okJson (.obj t (some s))) = .success s)
    ∧ (∀ t u : Option String, jsTruthy t = false → jsTruthy u = false →
        transcribeStep firstId modelId (.okJson (.obj t u))
          = .recover (modelId ++ ": No transcription text in response"))
    ∧ (∀ (att : String → TransAttempt) (rest errors : List String) (t u : Option String),
        att modelId = .okJson (.obj t u) → jsTruthy t = false → jsTruthy u = false →
        transcribeLoop att firstId (modelId :: rest) errors
          = transcribeLoop att firstId rest
              (errors ++ [modelId ++ ": No transcription text in response"])) := by
  refine ⟨rfl, ?_, ?_, ?_, ?_⟩
  · intro tr hs
    simp [transcribeStep, firstTruthy, jsTruthy, hs]
  · intro t ht hs
    simp only [transcribeStep, firstTruthy, ht]
    simp [jsTruthy, hs]
  · intro t u ht hu
    simp [transcribeStep, firstTruthy, ht, hu]
  · intro att rest errors t u hatt ht hu
    have hstep : transcribeStep firstId modelId (att modelId)
        = .recover (modelId ++ ": No transcription text in response") := by
      rw [hatt]
      simp [transcribeStep, firstTruthy, ht, hu]
    rw [transcribeLoop, hstep]

/-- C8 witness: concrete instances of the hypotheses and conclusions. -/
theorem c8_witness :
    ("hi" : String) ≠ "" ∧ jsTruthy none = false
    ∧ transcribeStep "m0" "m1" (.okJson (.obj (some "hi") none)) = .success "hi"
    ∧ transcribeStep "m0" "m1" (.okJson (.obj none none))
        = .recover ("m1" ++ ": No transcription text in response") :=
  ⟨by decide, rfl,
   (c8_success_extraction "m0" "m1" "hi").2.1 none (by decide),
   (c8_success_extraction "m0" "m1" "hi").2.2.2.1 none none rfl rfl⟩

/-- C10: the mock translation never reads its `transcribedText`
argument — for any two transcripts, any label and any random draw, the
result is identical. -/
theorem c10_mock_translation_ignores_transcript
    (animalName t1 t2 : String) (r : ℚ) :
    getMockTranslation animalName t1 r = getMockTranslation animalName t2 r := rfl

/-- C3: a Loading (503) response from the first candidate aborts the
run with the fatal "Model is loading ... try again" message — the
equality holds for every environment and every remaining candidate
list, so no later candidate is ever consulted — while a 503 from a
candidate with an id other than the first is recorded as recoverable
and the loop continues with the next candidate. -/
theorem c3_loading_first_fatal_other_recoverable
    (token first : String) (htoken : token ≠ "")
    (att : String → TransAttempt) (rest : List String) (body : TransErrorBody)
    (hfirst : att first = .httpError 503 body) :
    transcribeAnimalSound token att (first :: rest)
      = .error ("Transcription failed: " ++ ("Model is loading. Please wait "
          ++ toString (estimatedWait body.estimatedTime) ++ " seconds and try again."))
    ∧ ∀ (c : String) (cs errors : List String) (body2 : TransErrorBody),
        c ≠ first → att c = .httpError 503 body2 →
        transcribeLoop att first (c :: cs) errors
          = transcribeLoop att first cs (errors ++ ["Model " ++ c ++ " is loading (503)"]) := by
  constructor
  · have hloading : strIncludes ("Model is loading. Please wait "
        ++ toString (estimatedWait body.estimatedTime) ++ " seconds and try again.")
          "loading" = true := by
      apply strIncludes_append_left
      apply strIncludes_append_left
      decide
    have hstep : transcribeStep first first (att first)
        = .fatal ("Model is loading. Please wait "
            ++ toString (estimatedWait body.estimatedTime) ++ " seconds and try again.") := by
      rw [hfirst]
      simp [transcribeStep, transcribeCatch, hloading]
    have hcore : transcribeCore token att (first :: rest)
        = .error ("Model is loading. Please wait "
            ++ toString (estimatedWait body.estimatedTime) ++ " seconds and try again.") := by
      unfold transcribeCore
      rw [if_neg htoken]
      have hloop : transcribeLoop att ((first :: rest).headD "") (first :: rest) []
          = .thrown ("Model is loading. Please wait "
              ++ toString (estimatedWait body.estimatedTime) ++ " seconds and try again.") := by
        rw [List.headD_cons, transcribeLoop, hstep]
      rw [hloop]
    unfold transcribeAnimalSound
    rw [hcore]
  · intro c cs errors body2 hc hatt
    have hstep2 : transcribeStep first c (att c)
        = .recover ("Model " ++ c ++ " is loading (503)") := by
      rw [hatt]
      simp [transcribeStep, hc]
    rw [transcribeLoop, hstep2]

/-- C3 witness: concrete instances of the hypotheses and conclusions. -/
theorem c3_witness :
    ("hf_z" : String) ≠ ""
    ∧ (fun (_ : String) => TransAttempt.httpError 503 {}) "m0" = .httpError 503 {}
    ∧ (transcribeAnimalSound "hf_z" (fun _ => .httpError 503 {}) ["m0", "m1"]
        = .error ("Transcription failed: " ++ ("Model is loading. Please wait "
            ++ toString (estimatedWait (TransErrorBody.estimatedTime {}))
            ++ " seconds and try again."))
       ∧ ∀ (c : String) (cs errors : List String) (body2 : TransErrorBody),
          c ≠ "m0" → (fun (_ : String) => TransAttempt.httpError 503 {}) c
              = .httpError 503 body2 →
          transcribeLoop (fun _ => .httpError 503 {}) "m0" (c :: cs) errors
            = transcribeLoop (fun _ => .httpError 503 {}) "m0" cs
                (errors ++ ["Model " ++ c ++ " is loading (503)"])) :=
  ⟨by decide, rfl,
   c3_loading_first_fatal_other_recoverable "hf_z" "m0" (by decide)
     (fun _ => .httpError 503 {}) ["m1"] {} rfl⟩

/-- C4: when every candidate responds 410 Gone, transcription returns
the mock sentinel (`.ok none` — the `return null`, no error), and the
final record of `processAnimalSound` carries the canned mock transcript
for the animal with `isMockTranscription = true`, whatever the
translation side does. -/
theorem c4_all_gone_falls_back_to_mock
    (token animalName : String) (htoken : token ≠ "")
    (att : String → TransAttempt) (bodies : String → TransErrorBody)
    (models : List String) (hne : models ≠ [])
    (h410 : ∀ m ∈ models, att m = .httpError 410 (bodies m))
    (cAtt : String → ChatAttempt) (rC rM : ℚ) (cModels : List String) :
    transcribeAnimalSound token att models = .ok none
    ∧ ∃ rec, processAnimalSound token animalName att cAtt rC rM models cModels = .ok rec
        ∧ rec.transcribedText = getMockTranscription animalName
        ∧ rec.isMockTranscription = true := by
  have hstep : ∀ m ∈ models, transcribeStep (models.headD "") m (att m)
      = .recover ("Model " ++ m ++ " is no longer available (410 Gone)") := by
    intro m hm
    rw [h410 m hm]
    rfl
  have hloop : transcribeLoop att (models.headD "") models []
      = .exhausted (models.map
          (fun m => "Model " ++ m ++ " is no longer available (410 Gone)")) := by
    have h1 := transcribeLoop_all_recover att (models.headD "")
      (fun m => "Model " ++ m ++ " is no longer available (410 Gone)") models hstep [] []
    simpa [transcribeLoop] using h1
  have hall : all410 (models.map
      (fun m => "Model " ++ m ++ " is no longer available (410 Gone)")) = true := by
    unfold all410
    rw [Bool.and_eq_true]
    constructor
    · cases models with
      | nil => exact absurd rfl hne
      | cons a as => rfl
    · rw [List.all_eq_true]
      intro e he
      rw [List.mem_map] at he
      obtain ⟨m, -, hme⟩ := he
      subst hme
      rw [Bool.or_eq_true]
      left
      show strIncludes (("Model " ++ m) ++ " is no longer available (410 Gone)") "410" = true
      apply strIncludes_append_right
      decide
  have hcore : transcribeCore token att models = .ok none := by
    unfold transcribeCore
    rw [if_neg htoken, hloop]
    dsimp only
    rw [if_pos hall]
  have htrans : transcribeAnimalSound token att models = .ok none := by
    unfold transcribeAnimalSound
    rw [hcore]
  refine ⟨htrans, ?_⟩
  obtain ⟨rec, hrec, hdisj, -⟩ :=
    processAnimalSound_spec token animalName att cAtt rC rM models cModels
  refine ⟨rec, hrec, ?_⟩
  rcases hdisj with ⟨hflag, htext, -⟩ | ⟨-, -, hsome⟩
  · exact ⟨htext, hflag⟩
  · rw [htrans] at hsome
    cases hsome

/-- C4 witness: concrete instances of the hypotheses and conclusions. -/
theorem c4_witness :
    ("hf_w" : String) ≠ ""
    ∧ (["m0", "m1"] : List String) ≠ []
    ∧ (∀ m ∈ (["m0", "m1"] : List String),
        (fun (_ : String) => TransAttempt.httpError 410 {}) m
          = .httpError 410 ((fun _ => ({} : TransErrorBody)) m))
    ∧ (transcribeAnimalSound "hf_w" (fun _ => .httpError 410 {}) ["m0", "m1"] = .ok none
       ∧ ∃ rec, processAnimalSound "hf_w" "Cat" (fun _ => .httpError 410 {})
            (fun _ => .netFail "offline") 0 0 ["m0", "m1"] [] = .ok rec
          ∧ rec.transcribedText = getMockTranscription "Cat"
          ∧ rec.isMockTranscription = true) :=
  ⟨by decide, by decide, fun m _ => rfl,
   c4_all_gone_falls_back_to_mock "hf_w" "Cat" (by decide)
     (fun _ => .httpError 410 {}) (fun _ => {}) ["m0", "m1"] (by decide)
     (fun m _ => rfl) (fun _ => .netFail "offline") 0 0 []⟩

/-- C5: in both pipelines the candidate loop works strictly in list
order — a prefix of recoverably-failing candidates only appends its
error entries (one per candidate, in list order) before the loop
continues with the remaining candidates, and a successful candidate
stops the run at once with its value, regardless of what follows it. -/
theorem c5_sequencer_order_and_stop
    (att : String → TransAttempt) (firstId : String) (entry : String → String)
    (pre : List String)
    (hpre : ∀ m ∈ pre, transcribeStep firstId m (att m) = .recover (entry m))
    (catt : String → ChatAttempt) (animalName transcribedText : String) (r : ℚ)
    (centry : String → String) (cpre : List String)
    (hcpre : ∀ m ∈ cpre,
      translateStep m animalName transcribedText r (catt m) = .recover (centry m)) :
    (∀ rest errors, transcribeLoop att firstId (pre ++ rest) errors
        = transcribeLoop att firstId rest (errors ++ pre.map entry))
    ∧ (∀ c v rest errors, transcribeStep firstId c (att c) = .success v →
        transcribeLoop att firstId (pre ++ c :: rest) errors = .found v)
    ∧ (∀ rest errors, translateLoop animalName transcribedText r catt (cpre ++ rest) errors
        = translateLoop animalName transcribedText r catt rest (errors ++ cpre.map centry))
    ∧ (∀ c w rest errors,
        translateStep c animalName transcribedText r (catt c) = .success w →
        translateLoop animalName transcribedText r catt (cpre ++ c :: rest) errors
          = .found w) := by
  refine ⟨transcribeLoop_all_recover att firstId entry pre hpre, ?_,
          translateLoop_all_recover animalName transcribedText r catt centry cpre hcpre, ?_⟩
  · intro c v rest errors hc
    rw [transcribeLoop_all_recover att firstId entry pre hpre (c :: rest) errors]
    rw [transcribeLoop, hc]
  · intro c w rest errors hc
    rw [translateLoop_all_recover animalName transcribedText r catt centry cpre hcpre
      (c :: rest) errors]
    rw [translateLoop, hc]

/-- C5 witness: concrete instances of the hypotheses and conclusions. -/
theorem c5_witness :
    (∀ m ∈ (["p"] : List String),
      transcribeStep "p" m
          ((fun x => if x = "p" then TransAttempt.httpError 404 {}
            else .okJson (.bare "txt")) m)
        = .recover ((fun x =>
            "Model " ++ x ++ " not found (404) - may not be available on Inference API") m))
    ∧ (∀ m ∈ (["q"] : List String),
        translateStep m "Cat" "meow" 0
            ((fun x => if x = "q" then ChatAttempt.httpError 404 {}
              else .okJson (some "Hi")) m)
          = .recover ((fun x => x ++ ": API request failed with status 404") m))
    ∧ (transcribeLoop (fun x => if x = "p" then TransAttempt.httpError 404 {}
          else .okJson (.bare "txt")) "p" (["p"] ++ "c" :: ["z"]) []
        = .found "txt")
    ∧ (translateLoop "Cat" "meow" 0
          (fun x => if x = "q" then ChatAttempt.httpError 404 {}
            else .okJson (some "Hi")) (["q"] ++ "d" :: ["z"]) []
        = .found { text := "Hi", confidence := synthConfidence 0,
                   transcribedText := "meow" }) := by
  refine ⟨?_, ?_, ?_, ?_⟩
  · intro m hm
    simp only [List.mem_singleton] at hm
    subst hm
    rfl
  · intro m hm
    simp only [List.mem_singleton] at hm
    subst hm
    rfl
  · exact (c5_sequencer_order_and_stop
      (fun x => if x = "p" then TransAttempt.httpError 404 {} else .okJson (.bare "txt"))
      "p" (fun x =>
        "Model " ++ x ++ " not found (404) - may not be available on Inference API") ["p"]
      (by intro m hm; simp only [List.mem_singleton] at hm; subst hm; rfl)
      (fun x => if x = "q" then ChatAttempt.httpError 404 {} else .okJson (some "Hi"))
      "Cat" "meow" 0 (fun x => x ++ ": API request failed with status 404") ["q"]
      (by intro m hm; simp only [List.mem_singleton] at hm; subst hm; rfl)).2.1
      "c" "txt" ["z"] [] rfl
  · exact (c5_sequencer_order_and_stop
      (fun x => if x = "p" then TransAttempt.httpError 404 {} else .okJson (.bare "txt"))
      "p" (fun x =>
        "Model " ++ x ++ " not found (404) - may not be available on Inference API") ["p"]
      (by intro m hm; simp only [List.mem_singleton] at hm; subst hm; rfl)
      (fun x => if x = "q" then ChatAttempt.httpError 404 {} else .okJson (some "Hi"))
      "Cat" "meow" 0 (fun x => x ++ ": API request failed with status 404") ["q"]
      (by intro m hm; simp only [List.mem_singleton] at hm; subst hm; rfl)).2.2.2
      "d" { text := "Hi", confidence := synthConfidence 0, transcribedText := "meow" }
      ["z"] [] rfl

/-- C6: every successful remote translation carries a synthesized
confidence in [0.70, 0.95], and every record whose translation was
substituted by the mock after a translation hard error carries
confidence exactly 0.6. -/
theorem c6_confidence_bounds
    (transcribedText animalName token : String) (r : ℚ) (hr : 0 ≤ r)
    (catt : String → ChatAttempt) (models : List String) (v : TranslationSuccess)
    (hok : translateAnimalSound transcribedText animalName token r catt models = .ok v) :
    ((0.7 : ℚ) ≤ v.confidence ∧ v.confidence ≤ 0.95)
    ∧ ∀ (token2 animal2 : String) (tAtt : String → TransAttempt)
        (catt2 : String → ChatAttempt) (rC rM : ℚ) (rec : TranslationRecord)
        (tMod cMod : List String),
        processAnimalSound token2 animal2 tAtt catt2 rC rM tMod cMod = .ok rec →
        rec.isMockTranslation = true → rec.confidence = 0.6 := by
  constructor
  · obtain ⟨hconf, -, -⟩ :=
      translateAnimalSound_ok_inv transcribedText animalName token r catt models v hok
    rw [hconf]
    unfold synthConfidence
    have h1 : 0 ≤ r * 0.25 := mul_nonneg hr (by norm_num)
    exact ⟨le_min (by norm_num) (by linarith), min_le_left _ _⟩
  · intro token2 animal2 tAtt catt2 rC rM rec tMod cMod hrec hmock
    obtain ⟨rec2, hrec2, -, hdisj⟩ :=
      processAnimalSound_spec token2 animal2 tAtt catt2 rC rM tMod cMod
    rw [hrec] at hrec2
    injection hrec2 with h2
    subst h2
    rcases hdisj with ⟨-, hconf, -, -⟩ | ⟨hflag, -⟩
    · exact hconf
    · rw [hmock] at hflag
      cases hflag

/-- C6 witness: concrete instances of the hypotheses and conclusions. -/
theorem c6_witness :
    (0 : ℚ) ≤ 0
    ∧ translateAnimalSound "meow" "Cat" "hf_v" 0 (fun _ => .okJson (some "Hi")) ["m"]
        = .ok { text := "Hi", confidence := synthConfidence 0, transcribedText := "meow" }
    ∧ (((0.7 : ℚ) ≤ synthConfidence 0 ∧ synthConfidence 0 ≤ 0.95)
       ∧ ∀ (token2 animal2 : String) (tAtt : String → TransAttempt)
          (catt2 : String → ChatAttempt) (rC rM : ℚ) (rec : TranslationRecord)
          (tMod cMod : List String),
          processAnimalSound token2 animal2 tAtt catt2 rC rM tMod cMod = .ok rec →
          rec.isMockTranslation = true → rec.confidence = 0.6) :=
  ⟨le_refl 0, rfl,
   c6_confidence_bounds "meow" "Cat" "hf_v" 0 (le_refl 0) (fun _ => .okJson (some "Hi"))
     ["m"] { text := "Hi", confidence := synthConfidence 0, transcribedText := "meow" } rfl⟩

/-- C9: every record produced by `processAnimalSound` satisfies the
output invariant — confidence present and inside [0, 1], text nonempty,
transcript nonempty, and each of the transcript and the translation
produced by exactly one of remote success or the mock provider, with the
matching provenance flag. -/
theorem c9_record_invariants
    (token animalName : String) (tAtt : String → TransAttempt)
    (cAtt : String → ChatAttempt) (rC rM : ℚ) (hrC : 0 ≤ rC) (hrM : rM < 1)
    (tModels cModels : List String) (rec : TranslationRecord)
    (h : processAnimalSound token animalName tAtt cAtt rC rM tModels cModels = .ok rec) :
    (0 ≤ rec.confidence ∧ rec.confidence ≤ 1)
    ∧ rec.text ≠ ""
    ∧ rec.transcribedText ≠ ""
    ∧ ((rec.isMockTranscription = true
          ∧ rec.transcribedText = getMockTranscription animalName)
        ∨ (rec.isMockTranscription = false
            ∧ transcribeAnimalSound token tAtt tModels = .ok (some rec.transcribedText)))
    ∧ ((rec.isMockTranslation = true ∧ rec.confidence = 0.6
          ∧ rec.text = getMockTranslation animalName rec.transcribedText rM)
        ∨ (rec.isMockTranslation = false
            ∧ ∃ w, translateAnimalSound rec.transcribedText animalName token rC cAtt cModels
                = .ok w ∧ rec.text = w.text ∧ rec.confidence = w.confidence)) := by
  obtain ⟨rec2, hrec2, hd1, hd2⟩ :=
    processAnimalSound_spec token animalName tAtt cAtt rC rM tModels cModels
  rw [h] at hrec2
  injection hrec2 with h2
  subst h2
  have hconf_text : (0 ≤ rec.confidence ∧ rec.confidence ≤ 1) ∧ rec.text ≠ "" := by
    rcases hd2 with ⟨-, hconf, htexteq, -⟩ | ⟨-, w, hok, htext, hconf⟩
    · constructor
      · rw [hconf]
        norm_num
      · rw [htexteq]
        exact getMockTranslation_ne_empty animalName rec.transcribedText rM hrM
    · obtain ⟨hc, ht, -⟩ := translateAnimalSound_ok_inv _ _ _ _ _ _ _ hok
      constructor
      · rw [hconf, hc]
        unfold synthConfidence
        have h1 : 0 ≤ rC * 0.25 := mul_nonneg hrC (by norm_num)
        exact ⟨le_min (by norm_num) (by linarith),
          le_trans (min_le_left _ _) (by norm_num)⟩
      · rw [htext]
        exact ht
  have htrans_ne : rec.transcribedText ≠ "" := by
    rcases hd1 with ⟨-, heq, -⟩ | ⟨-, hne, -⟩
    · rw [heq]
      exact getMockTranscription_ne_empty animalName
    · exact hne
  refine ⟨hconf_text.1, hconf_text.2, htrans_ne, ?_, ?_⟩
  · rcases hd1 with ⟨hflag, heq, -⟩ | ⟨hflag, -, hok⟩
    · exact .inl ⟨hflag, heq⟩
    · exact .inr ⟨hflag, hok⟩
  · rcases hd2 with ⟨hflag, hconf, htexteq, -⟩ | ⟨hflag, w, hok, htext, hconf⟩
    · exact .inl ⟨hflag, hconf, htexteq⟩
    · exact .inr ⟨hflag, w, hok, htext, hconf⟩

/-- C9 witness: concrete instances of the hypotheses and conclusions. -/
theorem c9_witness :
    (0 : ℚ) ≤ 0 ∧ (0 : ℚ) < 1
    ∧ processAnimalSound "hf_u" "Dog" (fun _ => .okJson (.bare "meow"))
        (fun _ => .okJson (some "Hello")) 0 0 ["m"] ["c"]
      = .ok { text := "Hello", confidence := synthConfidence 0, transcribedText := "meow",
              isMockTranscription := false, isMockTranslation := false }
    ∧ (0 ≤ ({ text := "Hello", confidence := synthConfidence 0, transcribedText := "meow",
              isMockTranscription := false,
              isMockTranslation := false } : TranslationRecord).confidence
       ∧ ({ text := "Hello", confidence := synthConfidence 0, transcribedText := "meow",
            isMockTranscription := false,
            isMockTranslation := false } : TranslationRecord).confidence ≤ 1) :=
  ⟨le_refl 0, zero_lt_one, rfl,
   (c9_record_invariants "hf_u" "Dog" (fun _ => .okJson (.bare "meow"))
     (fun _ => .okJson (some "Hello")) 0 0 (le_refl 0) zero_lt_one ["m"] ["c"]
     { text := "Hello", confidence := synthConfidence 0, transcribedText := "meow",
       isMockTranscription := false, isMockTranslation := false } rfl).1⟩

end AnimalTranslator
